import Mathlib

/-!
Verification of the online-examination application core: role resolution and
row-level-security policies on profiles (SQL migration), the question manager
total-marks synchronisation (QuestionManager component), the exam attempt
lifecycle (Exam page and Dashboard), scoring (handleSubmitExam), and the
authentication-form domain restriction (Auth page).

Each definition is a shallow embedding of the corresponding source function;
database tables are embedded as lists of rows and each request handler as a
pure function on that state, with wall-clock times passed explicitly in
milliseconds and fresh row ids passed explicitly as parameters.
-/

namespace OnlineExam

/-! ## Data model -/

/-- Role stored in the profiles table: the application only ever writes the
strings "student" and "admin" into this column. -/
inductive Role
  | student
  | admin
deriving DecidableEq

/-- Row of the profiles table. -/
structure Profile where
  id : Nat
  full_name : String
  email : String
  role : Role
deriving DecidableEq

/-- Row of the exams table (fields the handlers read). -/
structure Exam where
  id : Nat
  subject_id : Nat
  title : String
  duration_minutes : Nat
  total_marks : Nat
  passing_marks : Nat
  is_active : Bool
deriving DecidableEq

/-- Row of the questions table. -/
structure Question where
  id : Nat
  exam_id : Nat
  question_text : String
  option_a : String
  option_b : String
  option_c : String
  option_d : String
  correct_answer : String
  marks : Nat
  order_number : Nat
deriving DecidableEq

/-- Status column of exam_attempts: the code writes only these two strings. -/
inductive AttemptStatus
  | in_progress
  | completed
deriving DecidableEq

/-- Row of the exam_attempts table.  started_at and completed_at are epoch
milliseconds; score and percentage are null until submission. -/
structure ExamAttempt where
  id : Nat
  exam_id : Nat
  student_id : Nat
  status : AttemptStatus
  started_at : Nat
  total_marks : Nat
  score : Option Nat
  percentage : Option ℚ
  completed_at : Option Nat
deriving DecidableEq

/-- Row of the student_answers table; is_correct stays null until submission. -/
structure StudentAnswer where
  attempt_id : Nat
  question_id : Nat
  selected_answer : String
  is_correct : Option Bool
deriving DecidableEq

/-- Database state touched by the exam lifecycle handlers. -/
structure DB where
  exams : List Exam
  questions : List Question
  attempts : List ExamAttempt
  answers : List StudentAnswer
deriving DecidableEq

/-! ## Role resolver and profile policies (SQL migration, part_000) -/

/-- Embedding of the security definer function:
SELECT role FROM public.profiles WHERE id = auth.uid().
Returns none when no profile row exists for the authenticated id. -/
def get_current_user_role (profiles : List Profile) (uid : Nat) : Option Role :=
  (profiles.find? (fun p => p.id == uid)).map (fun p => p.role)

/-- USING clause of policy "Admin can manage all profiles":
get_current_user_role() equals the string admin. -/
def adminManagesAllProfiles (profiles : List Profile) (uid : Nat) : Bool :=
  get_current_user_role profiles uid == some Role.admin

/-- USING clause of policy "Users can manage own profile": auth.uid() = id. -/
def userManagesOwnProfile (uid : Nat) (row : Profile) : Bool :=
  uid == row.id

/-- Postgres evaluates the FOR ALL policies on profiles by OR-ing them; with no
explicit WITH CHECK clause the USING expression is applied to the new row as
well.  An UPDATE of a profiles row is therefore permitted exactly when some
policy accepts the old row and some policy accepts the new row. -/
def profileRowPolicy (profiles : List Profile) (uid : Nat) (row : Profile) : Bool :=
  adminManagesAllProfiles profiles uid || userManagesOwnProfile uid row

/-- Authorization check for UPDATE on public.profiles under the two policies of
the migration. -/
def profileUpdateAllowed (profiles : List Profile) (uid : Nat)
    (oldRow newRow : Profile) : Bool :=
  profileRowPolicy profiles uid oldRow && profileRowPolicy profiles uid newRow

/-! ## Scoring (handleSubmitExam, part_001 lines 197-216) -/

/-- One element of the answersData join in handleSubmitExam: a student_answers
row together with the correct_answer and marks of its question. -/
structure AnswerRow where
  question_id : Nat
  selected_answer : String
  correct_answer : String
  marks : Nat
deriving DecidableEq

/-- Score accumulation of handleSubmitExam: starting from score = 0, each
joined row adds the marks of its question when selected_answer equals
correct_answer. -/
def computeScore (rows : List AnswerRow) : Nat :=
  rows.foldl (fun s r => if r.selected_answer = r.correct_answer then s + r.marks else s) 0

/-- Percentage computation of handleSubmitExam:
exam.total_marks ? (score / exam.total_marks) * 100 : 0.
A zero total_marks is falsy in JavaScript, so the guard yields 0 there. -/
def computePercentage (score totalMarks : Nat) : ℚ :=
  if totalMarks = 0 then 0 else ((score : ℚ) / (totalMarks : ℚ)) * 100

/-! ## Question manager (part_002) -/

/-- Accumulation in updateExamTotalMarks:
questions.reduce((sum, q) => sum + q.marks, 0). -/
def sumMarks (qs : List Question) : Nat :=
  qs.foldl (fun s q => s + q.marks) 0

/-- Form state of the QuestionManager dialog (questionForm). -/
structure QuestionForm where
  question_text : String
  option_a : String
  option_b : String
  option_c : String
  option_d : String
  correct_answer : String
  marks : Nat
  order_number : Nat
deriving DecidableEq

/-- Question mutations issued by QuestionManager.handleSubmit and
handleDelete.  A create carries the database-assigned fresh id. -/
inductive QOp
  | create (form : QuestionForm) (newId : Nat)
  | update (qid : Nat) (form : QuestionForm)
  | delete (qid : Nat)
deriving DecidableEq

/-- Effect of one question mutation on the questions table: insert of
form fields plus exam_id, UPDATE ... WHERE id = qid, or DELETE WHERE
id = qid. -/
def applyQOp (examId : Nat) (op : QOp) (qs : List Question) : List Question :=
  match op with
  | QOp.create f newId =>
      qs ++ [{ id := newId, exam_id := examId, question_text := f.question_text,
               option_a := f.option_a, option_b := f.option_b,
               option_c := f.option_c, option_d := f.option_d,
               correct_answer := f.correct_answer, marks := f.marks,
               order_number := f.order_number }]
  | QOp.update qid f =>
      qs.map (fun q =>
        if q.id == qid then
          { q with question_text := f.question_text,
                   option_a := f.option_a, option_b := f.option_b,
                   option_c := f.option_c, option_d := f.option_d,
                   correct_answer := f.correct_answer, marks := f.marks,
                   order_number := f.order_number }
        else q)
  | QOp.delete qid => qs.filter (fun q => q.id != qid)

/-- UPDATE exams SET total_marks = totalMarks WHERE id = examId
(updateExamTotalMarks, part_002 lines 158-170). -/
def updateExamTotalMarks (exams : List Exam) (examId totalMarks : Nat) : List Exam :=
  exams.map (fun e => if e.id == examId then { e with total_marks := totalMarks } else e)

/-- One complete QuestionManager mutation cycle: the mutation is applied, the
component refetches the questions of its exam, and the effect at part_002 lines
172-176 runs updateExamTotalMarks with the marks sum of the refetched list, but
only when that list is nonempty (the questions.length > 0 guard). -/
def questionMutation (examId : Nat) (op : QOp) (db : DB) : DB :=
  let questions2 := applyQOp examId op db.questions
  let visible := questions2.filter (fun q => q.exam_id == examId)
  let exams2 :=
    if visible.length > 0 then updateExamTotalMarks db.exams examId (sumMarks visible)
    else db.exams
  { db with questions := questions2, exams := exams2 }

/-! ## Answer recording (handleAnswerSelect, part_001 lines 159-177) -/

/-- Upsert into student_answers keyed by (attempt_id, question_id): an
existing row gets its selected_answer overwritten, otherwise a fresh row is
inserted with a null is_correct. -/
def upsertAnswer (answers : List StudentAnswer) (attemptId qid : Nat)
    (ans : String) : List StudentAnswer :=
  if answers.any (fun a => a.attempt_id == attemptId && a.question_id == qid) then
    answers.map (fun a =>
      if a.attempt_id == attemptId && a.question_id == qid then
        { a with selected_answer := ans }
      else a)
  else
    answers ++ [{ attempt_id := attemptId, question_id := qid,
                  selected_answer := ans, is_correct := none }]

/-- Embedding of handleAnswerSelect: it upserts the selection for the current
attempt unconditionally; the handler reads no attempt status. -/
def handleAnswerSelect (db : DB) (attempt : ExamAttempt) (qid : Nat)
    (ans : String) : DB :=
  { db with answers := upsertAnswer db.answers attempt.id qid ans }

/-! ## Resume timing and the countdown effect (part_001 lines 54-64, 100-107) -/

/-- Remaining time (in seconds) reconstructed when an in_progress attempt is
resumed: elapsedMinutes = Math.floor((now - startTime) / 60000),
remainingMinutes = Math.max(0, duration_minutes - elapsedMinutes), and the
timer state is remainingMinutes * 60.  Timestamps are epoch milliseconds with
started_at less than or equal to now, so JavaScript floor division coincides
with truncated natural subtraction and division. -/
def remainingSeconds (durationMinutes startedAt now : Nat) : Nat :=
  let elapsedMinutes := (now - startedAt) / (1000 * 60)
  let remainingMinutes := max 0 (durationMinutes - elapsedMinutes)
  remainingMinutes * 60

/-- Outcome of one run of the countdown effect. -/
inductive TimerAction
  | tick
  | autoSubmit
  | idle
deriving DecidableEq

/-- Countdown effect of the Exam page: a positive timeRemaining schedules a
decrement; at exactly zero with a current attempt present, handleSubmitExam
fires automatically. -/
def timerEffect (timeRemaining : Nat) (hasAttempt : Bool) : TimerAction :=
  if timeRemaining > 0 then TimerAction.tick
  else if timeRemaining = 0 && hasAttempt then TimerAction.autoSubmit
  else TimerAction.idle

/-! ## Starting and resuming attempts (part_001 lines 66-157 and 536-580) -/

/-- Row filter shared by the in_progress lookups of both creation sites:
eq on exam_id, student_id, and status equal to the in_progress string. -/
def inProgressFor (examId studentId : Nat) (a : ExamAttempt) : Bool :=
  a.exam_id == examId && a.student_id == studentId &&
    a.status == AttemptStatus.in_progress

/-- Lookup of the in_progress attempt for (exam, student): SELECT ... single()
over the three equality filters. -/
def findActiveAttempt (attempts : List ExamAttempt) (examId studentId : Nat) :
    Option ExamAttempt :=
  attempts.find? (inProgressFor examId studentId)

/-- Number of in_progress attempts recorded for one (exam, student) pair: the
measure of the at-most-one invariant. -/
def countInProgress (attempts : List ExamAttempt) (examId studentId : Nat) : Nat :=
  (attempts.filter (inProgressFor examId studentId)).length

/-- Fresh attempt row as inserted by both creation sites: status in_progress,
started_at set by the database to the current time, total_marks copied from
the exam row, score, percentage and completed_at null. -/
def newAttemptRow (examId studentId newId now totalMarks : Nat) : ExamAttempt :=
  { id := newId, exam_id := examId, student_id := studentId,
    status := AttemptStatus.in_progress, started_at := now,
    total_marks := totalMarks, score := none, percentage := none,
    completed_at := none }

/-- Result of the Dashboard startExam handler. -/
inductive StartResult
  | resumed
  | started (a : ExamAttempt)
  | failed
deriving DecidableEq

/-- Embedding of Dashboard.startExam (part_001 lines 536-580): look up an
in_progress attempt for (exam, student) and navigate if one exists; otherwise
fetch the exam row for its total_marks and insert a fresh in_progress attempt.
No is_active check appears on this path. -/
def startExam (db : DB) (examId studentId newId now : Nat) :
    DB × StartResult :=
  match findActiveAttempt db.attempts examId studentId with
  | some _ => (db, StartResult.resumed)
  | none =>
    match db.exams.find? (fun e => e.id == examId) with
    | none => (db, StartResult.failed)
    | some e =>
      let a := newAttemptRow examId studentId newId now e.total_marks
      ({ db with attempts := db.attempts ++ [a] }, StartResult.started a)

/-- Result of fetchExamData on the Exam page: the not-active branch aborts by
navigating back to the dashboard before any attempt lookup or creation. -/
inductive FetchResult
  | notActive
  | resumed (a : ExamAttempt) (remaining : Nat)
  | started (a : ExamAttempt)
  | failed
deriving DecidableEq

/-- Embedding of Exam.fetchExamData (part_001 lines 66-157): fetch the exam
row, bail out to the dashboard when it is missing or inactive, then resume the
existing in_progress attempt (reconstructing the remaining seconds) or insert
a fresh one. -/
def fetchExamData (db : DB) (examId studentId newId now : Nat) :
    DB × FetchResult :=
  match db.exams.find? (fun e => e.id == examId) with
  | none => (db, FetchResult.failed)
  | some e =>
    if !e.is_active then (db, FetchResult.notActive)
    else
      match findActiveAttempt db.attempts examId studentId with
      | some a =>
          (db, FetchResult.resumed a (remainingSeconds e.duration_minutes a.started_at now))
      | none =>
          let a := newAttemptRow examId studentId newId now e.total_marks
          ({ db with attempts := db.attempts ++ [a] }, FetchResult.started a)

/-! ## Submission (handleSubmitExam, part_001 lines 179-239) -/

/-- The answersData join of handleSubmitExam: student_answers rows of the
attempt, each paired with the correct_answer and marks of its question. -/
def answerRows (db : DB) (attemptId : Nat) : List AnswerRow :=
  (db.answers.filter (fun a => a.attempt_id == attemptId)).filterMap (fun a =>
    (db.questions.find? (fun q => q.id == a.question_id)).map (fun q =>
      { question_id := a.question_id, selected_answer := a.selected_answer,
        correct_answer := q.correct_answer, marks := q.marks }))

/-- Embedding of handleSubmitExam: compute the score over the join, write each
is_correct flag of each answer, compute the percentage against the total_marks
of the loaded exam row, and update the attempt to completed with score, percentage and
completed_at.  examTotalMarks is the total_marks of the exam state loaded by
the page. -/
def handleSubmitExam (db : DB) (attemptId examTotalMarks now : Nat) : DB :=
  let score := computeScore (answerRows db attemptId)
  let pct := computePercentage score examTotalMarks
  let answers2 := db.answers.map (fun a =>
    if a.attempt_id == attemptId then
      match db.questions.find? (fun q => q.id == a.question_id) with
      | some q => { a with is_correct := some (a.selected_answer == q.correct_answer) }
      | none => a
    else a)
  let attempts2 := db.attempts.map (fun a =>
    if a.id == attemptId then
      { a with status := AttemptStatus.completed, score := some score,
               percentage := some pct, completed_at := some now }
    else a)
  { db with answers := answers2, attempts := attempts2 }

/-! ## Admin exam editing (AdminPanel.updateExam) -/

/-- Edit form of the AdminPanel exam dialog (examForm). -/
structure ExamForm where
  title : String
  subject_id : Nat
  duration_minutes : Nat
  total_marks : Nat
  passing_marks : Nat
  is_active : Bool
deriving DecidableEq

/-- UPDATE exams SET ... WHERE id = examId (AdminPanel.updateExam). -/
def updateExam (exams : List Exam) (examId : Nat) (f : ExamForm) : List Exam :=
  exams.map (fun e =>
    if e.id == examId then
      { e with title := f.title, subject_id := f.subject_id,
               duration_minutes := f.duration_minutes,
               total_marks := f.total_marks, passing_marks := f.passing_marks,
               is_active := f.is_active }
    else e)

/-- Database operations of the exam lifecycle, used to state frame
properties over everything the handlers write. -/
inductive DBOp
  | qmutation (examId : Nat) (op : QOp)
  | examEdit (examId : Nat) (f : ExamForm)
  | answer (attempt : ExamAttempt) (qid : Nat) (ans : String)
  | submit (attemptId examTotalMarks now : Nat)
  | start (examId studentId newId now : Nat)
  | openExam (examId studentId newId now : Nat)
deriving DecidableEq

/-- Dispatch of one operation against the database. -/
def applyDBOp (op : DBOp) (db : DB) : DB :=
  match op with
  | DBOp.qmutation examId q => questionMutation examId q db
  | DBOp.examEdit examId f => { db with exams := updateExam db.exams examId f }
  | DBOp.answer attempt qid ans => handleAnswerSelect db attempt qid ans
  | DBOp.submit attemptId tm now => handleSubmitExam db attemptId tm now
  | DBOp.start examId studentId newId now => (startExam db examId studentId newId now).1
  | DBOp.openExam examId studentId newId now => (fetchExamData db examId studentId newId now).1

/-! ## Authentication forms (Auth page, part_001 lines 734-815) -/

/-- Embedding of isNeuEmail: lowercase the email and test the neu domain suffix,
on the underlying character lists with ASCII lowercasing. -/
def isNeuEmail (email : String) : Bool :=
  List.isSuffixOf "@neu.edu.ph".data (email.data.map Char.toLower)

/-- Sign-in form state. -/
structure SignInData where
  email : String
  password : String
  role : String
deriving DecidableEq

/-- Sign-up form state. -/
structure SignUpData where
  email : String
  password : String
  fullName : String
  confirmPassword : String
  role : String
deriving DecidableEq

/-- Outcome of a form submission: either an early rejection with a toast
message and no authentication call, or the handler proceeds to the
signIn / signUp call. -/
inductive AuthOutcome
  | rejected (msg : String)
  | authCalled
deriving DecidableEq

/-- Embedding of handleSignIn up to the authentication call: empty fields are
falsy in JavaScript, and an admin sign-in with a non-neu email is rejected
before signIn is invoked. -/
def handleSignIn (d : SignInData) : AuthOutcome :=
  if d.email == "" || d.password == "" || d.role == "" then
    AuthOutcome.rejected "Please fill in all fields"
  else if d.role == "admin" && !isNeuEmail d.email then
    AuthOutcome.rejected "Admin accounts require @neu.edu.ph email addresses"
  else AuthOutcome.authCalled

/-- Embedding of handleSignUp up to the authentication call. -/
def handleSignUp (d : SignUpData) : AuthOutcome :=
  if d.email == "" || d.password == "" || d.fullName == "" ||
      d.confirmPassword == "" || d.role == "" then
    AuthOutcome.rejected "Please fill in all fields"
  else if d.role == "admin" && !isNeuEmail d.email then
    AuthOutcome.rejected "Admin accounts can only be created with @neu.edu.ph email addresses"
  else if d.password != d.confirmPassword then
    AuthOutcome.rejected "Passwords do not match"
  else if d.password.length < 6 then
    AuthOutcome.rejected "Password must be at least 6 characters"
  else AuthOutcome.authCalled

/-! ## Concrete rows used to instantiate the theorems -/

/-- Student profile used for the role-escalation evaluation. -/
def malloryProfile : Profile :=
  { id := 1, full_name := "Mallory", email := "mallory@example.com",
    role := Role.student }

/-- Question worth 5 marks on exam 5. -/
def sampleQuestion : Question :=
  { id := 1, exam_id := 5, question_text := "2 + 2 = ?", option_a := "3",
    option_b := "4", option_c := "5", option_d := "6", correct_answer := "B",
    marks := 5, order_number := 1 }

/-- Active exam with id 5 and synchronised total_marks 5. -/
def sampleExam : Exam :=
  { id := 5, subject_id := 2, title := "Algebra", duration_minutes := 30,
    total_marks := 5, passing_marks := 3, is_active := true }

/-- Database holding the active exam, its single question, and no attempts. -/
def sampleDB : DB :=
  { exams := [sampleExam], questions := [sampleQuestion], attempts := [],
    answers := [] }

/-- Question form that raises the marks of question 1 to 7. -/
def sampleForm : QuestionForm :=
  { question_text := "2 + 2 = ?", option_a := "3", option_b := "4",
    option_c := "5", option_d := "6", correct_answer := "B", marks := 7,
    order_number := 1 }

/-- The sample exam with is_active switched off. -/
def sampleInactiveExam : Exam := { sampleExam with is_active := false }

/-- Database holding only the inactive exam and its question. -/
def sampleInactiveDB : DB :=
  { exams := [sampleInactiveExam], questions := [sampleQuestion],
    attempts := [], answers := [] }

/-- A completed attempt at exam 5 by student 9. -/
def completedAttempt : ExamAttempt :=
  { id := 3, exam_id := 5, student_id := 9, status := AttemptStatus.completed,
    started_at := 0, total_marks := 5, score := some 0, percentage := some 0,
    completed_at := some 1800000 }

/-- Database in which student 9 already completed exam 5. -/
def completedDB : DB :=
  { exams := [sampleExam], questions := [sampleQuestion],
    attempts := [completedAttempt], answers := [] }

/-- An in_progress attempt at exam 5 by student 9. -/
def inProgressAttempt : ExamAttempt :=
  { id := 2, exam_id := 5, student_id := 9,
    status := AttemptStatus.in_progress, started_at := 0, total_marks := 5,
    score := none, percentage := none, completed_at := none }

/-- Database in which student 9 has an in_progress attempt at exam 5. -/
def inProgressDB : DB :=
  { exams := [sampleExam], questions := [sampleQuestion],
    attempts := [inProgressAttempt], answers := [] }

/-- Joined answer row whose question is worth more than the stored exam
total_marks of 10 used alongside it. -/
def overweightRow : AnswerRow :=
  { question_id := 1, selected_answer := "B", correct_answer := "B",
    marks := 20 }

/-- Admin sign-in data with an email outside the neu domain. -/
def gmailAdminSignIn : SignInData :=
  { email := "x@gmail.com", password := "pw", role := "admin" }

/-- Student sign-in data with an email outside the neu domain. -/
def gmailStudentSignIn : SignInData :=
  { email := "x@gmail.com", password := "pw", role := "student" }

/-- Admin sign-up data with an email outside the neu domain. -/
def gmailAdminSignUp : SignUpData :=
  { email := "x@gmail.com", password := "secret7", fullName := "X",
    confirmPassword := "secret7", role := "admin" }

/-- Student sign-up data with an email outside the neu domain. -/
def gmailStudentSignUp : SignUpData :=
  { email := "x@gmail.com", password := "secret7", fullName := "X",
    confirmPassword := "secret7", role := "student" }

/-! ## Helper lemmas -/

/-- Folding the score accumulator from any start value yields that start plus
the marks sum of the correctly answered rows. -/
theorem computeScore_foldl_eq (rows : List AnswerRow) (s : Nat) :
    rows.foldl (fun t r => if r.selected_answer = r.correct_answer then t + r.marks else t) s
      = s + ((rows.filter (fun r => r.selected_answer = r.correct_answer)).map
          (fun r => r.marks)).sum := by
  induction rows generalizing s with
  | nil => simp
  | cons r rs ih =>
    by_cases h : r.selected_answer = r.correct_answer
    · simp [List.filter_cons, h, ih]
      omega
    · simp [List.filter_cons, h, ih]

/-! ## Claim C1 -/

/-- Claim C1: the role resolver is faithful to the role column, but the policy
pair of the migration lets a non-admin escalate: with the profiles table
holding only the student row of malloryProfile, the resolver reports the
identity as a student, yet an UPDATE of the own row that switches the role
column to admin passes the row-level authorization check, because the policy
named Users can manage own profile accepts every write on the own row. -/
theorem C1_student_can_escalate_own_role :
    get_current_user_role [malloryProfile] malloryProfile.id = some Role.student ∧
    malloryProfile.role = Role.student ∧
    profileUpdateAllowed [malloryProfile] malloryProfile.id malloryProfile
      { malloryProfile with role := Role.admin } = true ∧
    ({ malloryProfile with role := Role.admin } : Profile).role = Role.admin := by
  decide

/-! ## Claim C2 -/

/-- Claim C2: the submission handler computes score as the marks sum over
exactly the answers whose selected_answer equals the correct_answer of their
question, and percentage as 100 * score / total_marks, with 0 when
total_marks is 0; on the one-question scenario worth 10 marks with correct
answer B, selecting B yields score 10 and percentage 100 while selecting A
yields score 0 and percentage 0. -/
theorem C2_submit_score_and_percentage (rows : List AnswerRow) (totalMarks : Nat) :
    computeScore rows
      = ((rows.filter (fun r => r.selected_answer = r.correct_answer)).map
          (fun r => r.marks)).sum ∧
    computePercentage (computeScore rows) totalMarks
      = (if totalMarks = 0 then 0 else
          100 * (computeScore rows : ℚ) / (totalMarks : ℚ)) ∧
    computeScore [{ question_id := 1, selected_answer := "B",
                    correct_answer := "B", marks := 10 }] = 10 ∧
    computePercentage 10 10 = 100 ∧
    computeScore [{ question_id := 1, selected_answer := "A",
                    correct_answer := "B", marks := 10 }] = 0 ∧
    computePercentage 0 10 = 0 := by
  refine ⟨?_, ?_, by decide, ?_, by decide, ?_⟩
  · simpa using computeScore_foldl_eq rows 0
  · unfold computePercentage
    split
    · rfl
    · ring
  · norm_num [computePercentage]
  · norm_num [computePercentage]

/-! ## Claim C3 -/

/-- Claim C3 fails on the delete-the-last-question case: starting from the
database whose exam 5 stores total_marks 5 and owns the single question 1,
deleting that question leaves the exam with no questions, yet the
questions.length > 0 guard skips the synchronisation and total_marks stays 5
instead of the sum 0. -/
theorem C3_counterexample_delete_last_question :
    (questionMutation 5 (QOp.delete 1) sampleDB).questions.filter
        (fun q => q.exam_id == 5) = [] ∧
    (questionMutation 5 (QOp.delete 1) sampleDB).exams.map
        (fun e => e.total_marks) = [5] ∧
    sumMarks ((questionMutation 5 (QOp.delete 1) sampleDB).questions.filter
        (fun q => q.exam_id == 5)) = 0 ∧
    (5 : Nat) ≠ 0 := by
  decide

/-- Claim C3 amended: after a question create, update, or delete that leaves
the exam with at least one question, every exams row with that id stores the
marks sum of the remaining questions; a mutation that leaves the exam with no
questions leaves the exams table unchanged, so total_marks keeps its previous
value instead of dropping to 0. -/
theorem C3_total_marks_synced_when_nonempty (examId : Nat) (op : QOp) (db : DB) :
    ((questionMutation examId op db).questions.filter
        (fun q => q.exam_id == examId) ≠ [] →
      ∀ e ∈ (questionMutation examId op db).exams, e.id = examId →
        e.total_marks = sumMarks ((questionMutation examId op db).questions.filter
          (fun q => q.exam_id == examId))) ∧
    ((questionMutation examId op db).questions.filter
        (fun q => q.exam_id == examId) = [] →
      (questionMutation examId op db).exams = db.exams) := by
  unfold questionMutation
  constructor
  · intro hne e he hid
    simp only at he hne ⊢
    have hlen : ((applyQOp examId op db.questions).filter
        (fun q => q.exam_id == examId)).length > 0 :=
      List.length_pos.mpr hne
    rw [if_pos hlen] at he
    unfold updateExamTotalMarks at he
    obtain ⟨e0, _, hfe⟩ := List.mem_map.mp he
    by_cases h0 : e0.id == examId
    · rw [if_pos h0] at hfe
      rw [← hfe]
    · rw [if_neg h0] at hfe
      subst hfe
      exact absurd (beq_iff_eq.mpr hid) h0
  · intro hnil
    simp only at hnil ⊢
    have hlen : ¬(((applyQOp examId op db.questions).filter
        (fun q => q.exam_id == examId)).length > 0) := by
      rw [hnil]
      simp
    rw [if_neg hlen]

/-- Witness for the amended claim C3: updating question 1 of exam 5 to be
worth 7 marks leaves one question, and the exam row indeed stores the
synchronised sum. -/
theorem C3_total_marks_synced_when_nonempty_witness :
    ({ sampleExam with total_marks := 7 } : Exam).total_marks
      = sumMarks ((questionMutation 5 (QOp.update 1 sampleForm) sampleDB).questions.filter
          (fun q => q.exam_id == 5)) := by
  exact (C3_total_marks_synced_when_nonempty 5 (QOp.update 1 sampleForm) sampleDB).1
    (by decide) ({ sampleExam with total_marks := 7 }) (by decide) (by decide)

/-! ## Claim C4 -/

/-- Claim C4 fails on the completed branch: handleAnswerSelect consults no
attempt status, so invoking it for the completed attempt of completedDB
persists a fresh student_answers row instead of rejecting the write. -/
theorem C4_counterexample_answer_after_completion :
    completedAttempt.status = AttemptStatus.completed ∧
    (handleAnswerSelect completedDB completedAttempt 1 "B").answers
      = [{ attempt_id := 3, question_id := 1, selected_answer := "B",
           is_correct := none }] ∧
    (handleAnswerSelect completedDB completedAttempt 1 "B").answers
      ≠ completedDB.answers := by
  decide

/-- Upserting always leaves a row recording the given selection for the given
attempt and question. -/
theorem upsertAnswer_records (answers : List StudentAnswer) (attemptId qid : Nat)
    (ans : String) :
    ∃ a, a ∈ upsertAnswer answers attemptId qid ans ∧
      a.attempt_id = attemptId ∧ a.question_id = qid ∧
      a.selected_answer = ans := by
  unfold upsertAnswer
  by_cases h : answers.any (fun a => a.attempt_id == attemptId && a.question_id == qid)
  · rw [if_pos h]
    obtain ⟨a, ha, hp⟩ := List.any_eq_true.mp h
    obtain ⟨h1, h2⟩ := Bool.and_eq_true _ _ |>.mp hp
    refine ⟨{ a with selected_answer := ans }, ?_, beq_iff_eq.mp h1, beq_iff_eq.mp h2, rfl⟩
    have := List.mem_map_of_mem (f := fun a =>
      if a.attempt_id == attemptId && a.question_id == qid then
        { a with selected_answer := ans }
      else a) ha
    simpa [hp] using this
  · rw [if_neg h]
    exact ⟨{ attempt_id := attemptId, question_id := qid,
             selected_answer := ans, is_correct := none },
           by simp, rfl, rfl, rfl⟩

/-- Claim C4 amended: the Answer upsert succeeds for every attempt regardless
of its status: handleAnswerSelect performs no status check, so both an
in_progress and a completed attempt end up with a persisted row carrying the
selected answer. -/
theorem C4_answer_upsert_ignores_status (db : DB) (attempt : ExamAttempt)
    (qid : Nat) (ans : String) :
    ∃ a, a ∈ (handleAnswerSelect db attempt qid ans).answers ∧
      a.attempt_id = attempt.id ∧ a.question_id = qid ∧
      a.selected_answer = ans := by
  exact upsertAnswer_records db.answers attempt.id qid ans

/-! ## Claim C5 -/

/-- Claim C5 fails above 100: with the single correctly answered overweightRow
worth 20 marks against a stored total_marks of 10, the computed percentage is
200, outside the interval [0, 100] although total_marks is positive. -/
theorem C5_counterexample_percentage_200 :
    computeScore [overweightRow] = 20 ∧
    computePercentage (computeScore [overweightRow]) 10 = 200 ∧
    ¬computePercentage (computeScore [overweightRow]) 10 ≤ 100 := by
  have hs : computeScore [overweightRow] = 20 := by decide
  refine ⟨hs, ?_, ?_⟩ <;> rw [hs] <;> norm_num [computePercentage]

/-- Claim C5 amended: the computed percentage is always nonnegative, equals 0
exactly when total_marks is 0, and lies in [0, 100] when the score does not
exceed total_marks; when the marks sum of correctly answered questions
exceeds the stored total_marks, it exceeds 100. -/
theorem C5_percentage_bounds (score totalMarks : Nat) :
    0 ≤ computePercentage score totalMarks ∧
    computePercentage score 0 = 0 ∧
    (score ≤ totalMarks → computePercentage score totalMarks ≤ 100) ∧
    (totalMarks ≠ 0 → totalMarks < score →
      100 < computePercentage score totalMarks) := by
  refine ⟨?_, by simp [computePercentage], ?_, ?_⟩
  · unfold computePercentage
    split
    · exact le_refl 0
    · positivity
  · intro hle
    unfold computePercentage
    split
    · norm_num
    · have htpos : (0 : ℚ) < (totalMarks : ℚ) := by
        exact_mod_cast Nat.pos_of_ne_zero (by assumption)
      have hdiv : (score : ℚ) / (totalMarks : ℚ) ≤ 1 :=
        (div_le_one htpos).mpr (by exact_mod_cast hle)
      calc (score : ℚ) / (totalMarks : ℚ) * 100 ≤ 1 * 100 := by
            exact mul_le_mul_of_nonneg_right hdiv (by norm_num)
        _ = 100 := by norm_num
  · intro hne hlt
    unfold computePercentage
    rw [if_neg hne]
    have htpos : (0 : ℚ) < (totalMarks : ℚ) := by
      exact_mod_cast Nat.pos_of_ne_zero hne
    have hdiv : (1 : ℚ) < (score : ℚ) / (totalMarks : ℚ) :=
      (one_lt_div htpos).mpr (by exact_mod_cast hlt)
    calc (100 : ℚ) = 1 * 100 := by norm_num
      _ < (score : ℚ) / (totalMarks : ℚ) * 100 := by
            exact mul_lt_mul_of_pos_right hdiv (by norm_num)

/-- Witness for the amended claim C5 at score 5 and total_marks 10: the
percentage is 50, inside the interval, and at score 20 against 10 it exceeds
100. -/
theorem C5_percentage_bounds_witness :
    0 ≤ computePercentage 5 10 ∧ computePercentage 5 0 = 0 ∧
    computePercentage 5 10 ≤ 100 ∧ 100 < computePercentage 20 10 := by
  refine ⟨(C5_percentage_bounds 5 10).1, (C5_percentage_bounds 5 10).2.1,
    (C5_percentage_bounds 5 10).2.2.1 (by norm_num),
    (C5_percentage_bounds 20 10).2.2.2 (by norm_num) (by norm_num)⟩

/-! ## Claim C6 -/

/-- Claim C6: resuming an in_progress attempt reconstructs the remaining
seconds as duration_minutes minus the elapsed whole minutes since started_at,
clamped at zero; the remaining time is zero exactly when the elapsed minutes
reach the duration, the countdown effect fires the automatic submission
exactly when the remaining time is zero and an attempt is present, and
reopening a 30-minute exam 40 minutes after its start yields zero remaining
time and an immediate automatic submission. -/
theorem C6_resume_clamp_and_autosubmit (durationMinutes startedAt now : Nat) :
    remainingSeconds durationMinutes startedAt now
      = (durationMinutes - (now - startedAt) / 60000) * 60 ∧
    (remainingSeconds durationMinutes startedAt now = 0 ↔
      durationMinutes ≤ (now - startedAt) / 60000) ∧
    (timerEffect (remainingSeconds durationMinutes startedAt now) true
        = TimerAction.autoSubmit ↔
      remainingSeconds durationMinutes startedAt now = 0) ∧
    remainingSeconds 30 0 (40 * 60000) = 0 ∧
    timerEffect (remainingSeconds 30 0 (40 * 60000)) true
      = TimerAction.autoSubmit := by
  have htimer : ∀ r : Nat, timerEffect r true = TimerAction.autoSubmit ↔ r = 0 := by
    intro r
    cases r with
    | zero => simp [timerEffect]
    | succ n => simp [timerEffect]
  refine ⟨?_, ?_, htimer _, by decide, by decide⟩
  · unfold remainingSeconds
    norm_num
  · unfold remainingSeconds
    norm_num
    omega

/-! ## Claim C7 -/

/-- Claim C7 fails on the Dashboard path: startExam performs no is_active
check, so invoking it on the inactive exam of sampleInactiveDB inserts a
fresh ExamAttempt row and reports a successful start, contradicting that no
ExamAttempt row is created when is_active is false. -/
theorem C7_counterexample_start_inactive_exam :
    sampleInactiveExam.is_active = false ∧
    (startExam sampleInactiveDB 5 9 42 1000).2
      = StartResult.started (newAttemptRow 5 9 42 1000 5) ∧
    (startExam sampleInactiveDB 5 9 42 1000).1.attempts
      = [newAttemptRow 5 9 42 1000 5] := by
  decide

/-- Claim C7 amended: the Exam page entry point enforces the precondition:
when the exam row is inactive, fetchExamData reports the not-available
condition, aborts navigation, and leaves the database unchanged, so no
ExamAttempt row is created; the Dashboard startExam helper however performs
no is_active check and, absent an in_progress attempt, inserts an attempt row
for the inactive exam. -/
theorem C7_is_active_gate (db : DB) (examId studentId newId now : Nat)
    (e : Exam) (hfind : db.exams.find? (fun x => x.id == examId) = some e)
    (hinactive : e.is_active = false) :
    fetchExamData db examId studentId newId now = (db, FetchResult.notActive) ∧
    (findActiveAttempt db.attempts examId studentId = none →
      (startExam db examId studentId newId now).1.attempts
        = db.attempts ++ [newAttemptRow examId studentId newId now e.total_marks]) := by
  constructor
  · unfold fetchExamData
    rw [hfind]
    simp [hinactive]
  · intro hnone
    unfold startExam
    rw [hnone, hfind]

/-- Witness for the amended claim C7 on the inactive sample database: the
Exam page aborts with not-available while the Dashboard helper creates the
attempt row. -/
theorem C7_is_active_gate_witness :
    fetchExamData sampleInactiveDB 5 9 42 1000
      = (sampleInactiveDB, FetchResult.notActive) ∧
    (startExam sampleInactiveDB 5 9 42 1000).1.attempts
      = [newAttemptRow 5 9 42 1000 5] := by
  have h := C7_is_active_gate sampleInactiveDB 5 9 42 1000 sampleInactiveExam
    (by decide) (by decide)
  exact ⟨h.1, by rw [h.2 (by decide)]; rfl⟩

/-! ## Claim C8 -/

/-- Appending one attempt adds its own contribution to the in_progress count
of a pair. -/
theorem countInProgress_append (attempts : List ExamAttempt) (a : ExamAttempt)
    (examId studentId : Nat) :
    countInProgress (attempts ++ [a]) examId studentId
      = countInProgress attempts examId studentId
        + (if inProgressFor examId studentId a then 1 else 0) := by
  unfold countInProgress
  rw [List.filter_append, List.length_append]
  by_cases h : inProgressFor examId studentId a
  · simp [h]
  · simp [h]

/-- A failed in_progress lookup means the pair has in_progress count zero. -/
theorem findActiveAttempt_none_count (attempts : List ExamAttempt)
    (examId studentId : Nat)
    (h : findActiveAttempt attempts examId studentId = none) :
    countInProgress attempts examId studentId = 0 := by
  unfold findActiveAttempt at h
  unfold countInProgress
  rw [List.length_eq_zero]
  rw [List.filter_eq_nil_iff]
  intro a ha
  exact List.find?_eq_none.mp h a ha

/-- Claim C8: both creation sites look up an existing in_progress attempt
first and insert only when the lookup is empty, so under sequential execution
each of them preserves the bound of at most one in_progress attempt per
(student, exam) pair; moreover a successful lookup leaves the database
unchanged. -/
theorem C8_at_most_one_in_progress (db : DB)
    (examId studentId newId now eid sid : Nat)
    (h : countInProgress db.attempts eid sid ≤ 1) :
    countInProgress (startExam db examId studentId newId now).1.attempts eid sid ≤ 1 ∧
    countInProgress (fetchExamData db examId studentId newId now).1.attempts eid sid ≤ 1 ∧
    (findActiveAttempt db.attempts examId studentId ≠ none →
      (startExam db examId studentId newId now).1 = db ∧
      (fetchExamData db examId studentId newId now).1 = db) := by
  have hstep : ∀ tm : Nat,
      findActiveAttempt db.attempts examId studentId = none →
      countInProgress (db.attempts
        ++ [newAttemptRow examId studentId newId now tm]) eid sid ≤ 1 := by
    intro tm hnone
    rw [countInProgress_append]
    by_cases hpair : examId = eid ∧ studentId = sid
    · obtain ⟨h1, h2⟩ := hpair
      subst h1
      subst h2
      rw [findActiveAttempt_none_count db.attempts examId studentId hnone]
      split <;> norm_num
    · have : inProgressFor eid sid (newAttemptRow examId studentId newId now tm) = false := by
        unfold inProgressFor newAttemptRow
        simp only [Bool.and_eq_false_iff]
        rcases Decidable.not_and_iff_or_not.mp hpair with hc | hc
        · left
          left
          exact beq_eq_false_iff_ne.mpr hc
        · left
          right
          exact beq_eq_false_iff_ne.mpr hc
      rw [this]
      simpa using h
  refine ⟨?_, ?_, ?_⟩
  · unfold startExam
    cases hfa : findActiveAttempt db.attempts examId studentId with
    | some a => simpa using h
    | none =>
      cases hfe : db.exams.find? (fun x => x.id == examId) with
      | none => simpa using h
      | some e => simpa using hstep e.total_marks hfa
  · unfold fetchExamData
    cases hfe : db.exams.find? (fun x => x.id == examId) with
    | none => simpa using h
    | some e =>
      by_cases hact : e.is_active
      · cases hfa : findActiveAttempt db.attempts examId studentId with
        | some a => simp [hact, hfa]; exact h
        | none => simp [hact, hfa]; exact hstep e.total_marks hfa
      · simp [Bool.not_eq_true] at hact
        simp [hact]
        exact h
  · intro hne
    cases hfa : findActiveAttempt db.attempts examId studentId with
    | none => exact absurd hfa hne
    | some a =>
      constructor
      · unfold startExam
        rw [hfa]
      · unfold fetchExamData
        cases hfe : db.exams.find? (fun x => x.id == examId) with
        | none => rfl
        | some e =>
          by_cases hact : e.is_active
          · simp [hact, hfa]
          · simp [Bool.not_eq_true] at hact
            simp [hact]

/-- Witness for claim C8 on a database already holding the in_progress
attempt of student 9 at exam 5: both entry points resume without creating a
second attempt, and the count stays at one. -/
theorem C8_at_most_one_in_progress_witness :
    countInProgress (startExam inProgressDB 5 9 42 1000).1.attempts 5 9 ≤ 1 ∧
    (startExam inProgressDB 5 9 42 1000).1 = inProgressDB ∧
    (fetchExamData inProgressDB 5 9 42 1000).1 = inProgressDB := by
  have h := C8_at_most_one_in_progress inProgressDB 5 9 42 1000 5 9 (by decide)
  exact ⟨h.1, (h.2.2 (by decide)).1, (h.2.2 (by decide)).2⟩

/-! ## Claim C9 -/

/-- Mapping a row update that fixes total_marks leaves the total_marks column
unchanged. -/
theorem map_total_marks_of_preserving (l : List ExamAttempt)
    (f : ExamAttempt → ExamAttempt)
    (hf : ∀ a, (f a).total_marks = a.total_marks) :
    (l.map f).map (fun a => a.total_marks) = l.map (fun a => a.total_marks) := by
  induction l with
  | nil => rfl
  | cons a l ih => simp [hf, ih]

/-- Claim C9: over the database operations of the application — question
mutations, exam edits, answer upserts, submission, and the two attempt
creation sites — the total_marks column of exam_attempts changes only at
attempt creation, where the fresh row copies total_marks from the exam row
found at that moment; every other operation leaves the column of every
attempt untouched. -/
theorem C9_attempt_total_marks_snapshot (op : DBOp) (db : DB) :
    (applyDBOp op db).attempts.map (fun a => a.total_marks)
        = db.attempts.map (fun a => a.total_marks) ∨
    (∃ examId studentId newId now e,
      (op = DBOp.start examId studentId newId now ∨
       op = DBOp.openExam examId studentId newId now) ∧
      db.exams.find? (fun x => x.id == examId) = some e ∧
      (applyDBOp op db).attempts.map (fun a => a.total_marks)
        = db.attempts.map (fun a => a.total_marks) ++ [e.total_marks]) := by
  cases op with
  | qmutation examId q => exact Or.inl rfl
  | examEdit examId f => exact Or.inl rfl
  | answer attempt qid ans => exact Or.inl rfl
  | submit attemptId tm now =>
    left
    show ((db.attempts.map _).map _) = _
    apply map_total_marks_of_preserving
    intro a
    by_cases h : a.id == attemptId
    · simp [h]
    · simp [h]
  | start examId studentId newId now =>
    cases hfa : findActiveAttempt db.attempts examId studentId with
    | some a =>
      left
      simp [applyDBOp, startExam, hfa]
    | none =>
      cases hfe : db.exams.find? (fun x => x.id == examId) with
      | none =>
        left
        simp [applyDBOp, startExam, hfa, hfe]
      | some e =>
        right
        refine ⟨examId, studentId, newId, now, e, Or.inl rfl, hfe, ?_⟩
        simp [applyDBOp, startExam, hfa, hfe, newAttemptRow]
  | openExam examId studentId newId now =>
    cases hfe : db.exams.find? (fun x => x.id == examId) with
    | none =>
      left
      simp [applyDBOp, fetchExamData, hfe]
    | some e =>
      by_cases hact : e.is_active
      · cases hfa : findActiveAttempt db.attempts examId studentId with
        | some a =>
          left
          simp [applyDBOp, fetchExamData, hfe, hact, hfa]
        | none =>
          right
          refine ⟨examId, studentId, newId, now, e, Or.inr rfl, hfe, ?_⟩
          simp [applyDBOp, fetchExamData, hfe, hact, hfa, newAttemptRow]
      · left
        simp only [Bool.not_eq_true] at hact
        simp [applyDBOp, fetchExamData, hfe, hact]

/-! ## Claim C10 -/

/-- Claim C10: a sign-in or sign-up request carrying the admin role whose
email does not end case-insensitively in the neu domain is rejected before
the authentication call is issued, while requests carrying the student role
pass no domain check: a student sign-in with nonempty fields reaches the
authentication call whatever its email, and so does a student sign-up whose
remaining validations pass. -/
theorem C10_admin_requires_neu_email (si : SignInData) (su : SignUpData) :
    (si.role = "admin" → isNeuEmail si.email = false →
      handleSignIn si ≠ AuthOutcome.authCalled) ∧
    (su.role = "admin" → isNeuEmail su.email = false →
      handleSignUp su ≠ AuthOutcome.authCalled) ∧
    (si.role = "student" → si.email ≠ "" → si.password ≠ "" →
      handleSignIn si = AuthOutcome.authCalled) ∧
    (su.role = "student" → su.email ≠ "" → su.password ≠ "" →
      su.fullName ≠ "" → su.confirmPassword ≠ "" →
      su.password = su.confirmPassword → 6 ≤ su.password.length →
      handleSignUp su = AuthOutcome.authCalled) := by
  refine ⟨?_, ?_, ?_, ?_⟩
  · intro hrole hmail
    unfold handleSignIn
    split_ifs with h1 h2 <;> simp_all
  · intro hrole hmail
    unfold handleSignUp
    split_ifs with h1 h2 h3 h4 <;> simp_all
  · intro hrole he hp
    unfold handleSignIn
    split_ifs with h1 h2 <;> simp_all
  · intro hrole he hp hn hc hmatch hlen
    unfold handleSignUp
    split_ifs with h1 h2 h3 h4 <;> simp_all
    omega

/-- Witness for claim C10 at concrete form data outside the neu domain: the
admin sign-in and sign-up are rejected, the student sign-in and sign-up reach
the authentication call. -/
theorem C10_admin_requires_neu_email_witness :
    handleSignIn gmailAdminSignIn ≠ AuthOutcome.authCalled ∧
    handleSignUp gmailAdminSignUp ≠ AuthOutcome.authCalled ∧
    handleSignIn gmailStudentSignIn = AuthOutcome.authCalled ∧
    handleSignUp gmailStudentSignUp = AuthOutcome.authCalled := by
  have h1 := C10_admin_requires_neu_email gmailAdminSignIn gmailAdminSignUp
  have h2 := C10_admin_requires_neu_email gmailStudentSignIn gmailStudentSignUp
  exact ⟨h1.1 (by decide) (by decide), h1.2.1 (by decide) (by decide),
    h2.2.2.1 (by decide) (by decide) (by decide),
    h2.2.2.2 (by decide) (by decide) (by decide) (by decide) (by decide)
      (by decide) (by decide)⟩

end OnlineExam

